import Mathlib

/-!
Shallow embedding of the `agri_lib` plant-portfolio core
(`src/agri_lib/crop_manager.py` and `src/agri_lib/utils.py`).

Modelling conventions:
* Python floats are embedded as exact rationals (`ℚ`); every numeric
  literal of the source is an exactly representable decimal, so all the
  source's arithmetic is exact over `ℚ`.
* Python `round(x, 2)` is embedded as round-half-to-even at two decimal
  places over `ℚ` (`round2` below).
* Raising `ValueError` is embedded as `Except String`; a setter that
  raises leaves the caller's object as it was, which `applyOp` makes
  explicit.
* `str.lower()` is embedded as `pyLower` (per-character ASCII lowering);
  all keys appearing in the source's tables are ASCII.
* The wall-clock fields (`_planting_date`, `days_since_planting`) carry
  no claim-relevant content and are omitted from the entity state.
-/

namespace AgriLib

/-- Python `str.lower()` restricted to ASCII, as used on subtype keys. -/
def pyLower (s : String) : String := ⟨s.data.map Char.toLower⟩

/-- Round-half-to-even of a rational to an integer (Python `round(x)` semantics). -/
def roundHalfEven (x : ℚ) : ℤ :=
  let n : ℤ := ⌊x⌋
  if x - n < 1/2 then n
  else if 1/2 < x - n then n + 1
  else if n % 2 = 0 then n else n + 1

/-- Python `round(x, 2)` over exact rationals. -/
def round2 (x : ℚ) : ℚ := (roundHalfEven (x * 100) : ℚ) / 100

/-- Embeds `tbl.get(k)` on an association list standing for a Python dict
(insertion order preserved, keys distinct). -/
def tget (tbl : List (String × ℚ)) (k : String) : Option ℚ :=
  (tbl.find? (fun p => p.1 == k)).map Prod.snd

/-- Embeds `tbl.get(k, tbl['default'])`: lookup with fallback to the table's
`'default'` entry (present in every table of `crop_manager.py`). -/
def getRate (tbl : List (String × ℚ)) (k : String) : ℚ :=
  ((tget tbl k).orElse (fun _ => tget tbl "default")).getD 0

/-- Variant-specific data of a plant: `Crop` (`_crop_subtype`),
`Forest` (`_tree_type`), or `Agriculture` (`_crop_subtype`, `_is_organic`). -/
inductive PlantKind where
  | crop (subtype : String)
  | forest (treeType : String)
  | agriculture (subtype : String) (isOrganic : Bool)
deriving DecidableEq, Repr

/-- State of a `BasePlant` instance (minus the wall-clock planting date)
together with its concrete class. -/
structure Plant where
  name : String
  area : ℚ
  status : String
  kind : PlantKind
deriving DecidableEq, Repr

/-- Embeds `Crop.YIELD_RATES` (tonnes per hectare). -/
def YIELD_RATES : List (String × ℚ) :=
  [("wheat", 3.5), ("corn", 10.0), ("rice", 4.5), ("potato", 40.0),
   ("soybean", 2.8), ("cotton", 1.8), ("default", 5.0)]

/-- Embeds `Crop.get_water_requirement`'s `water_needs` table. -/
def WATER_NEEDS : List (String × ℚ) :=
  [("wheat", 4500), ("corn", 5000), ("rice", 12000), ("potato", 5000),
   ("soybean", 4500), ("cotton", 7000), ("default", 5000)]

/-- Embeds `Forest.TIMBER_RATES` (cubic meters per hectare). -/
def TIMBER_RATES : List (String × ℚ) :=
  [("pine", 15.0), ("oak", 8.0), ("eucalyptus", 25.0), ("teak", 10.0),
   ("bamboo", 20.0), ("default", 12.0)]

/-- Embeds `Forest.get_carbon_sequestration`'s `carbon_rates` table. -/
def CARBON_RATES : List (String × ℚ) :=
  [("pine", 8.0), ("oak", 6.5), ("eucalyptus", 15.0), ("teak", 7.0),
   ("bamboo", 12.0), ("default", 8.0)]

/-- Embeds `Agriculture.get_market_value`'s `base_prices` table. -/
def BASE_PRICES : List (String × ℚ) :=
  [("wheat", 250), ("corn", 200), ("rice", 350), ("potato", 150),
   ("soybean", 400), ("cotton", 1500), ("default", 300)]

/-- Embeds `Crop.__init__`: `BasePlant.__init__` (status `'planted'`) plus the
lowercased crop subtype. -/
def Crop.make (name : String) (area : ℚ) (crop_subtype : String) : Plant :=
  { name := name, area := area, status := "planted",
    kind := .crop (pyLower crop_subtype) }

/-- Embeds `Forest.__init__`. -/
def Forest.make (name : String) (area : ℚ) (tree_type : String) : Plant :=
  { name := name, area := area, status := "planted",
    kind := .forest (pyLower tree_type) }

/-- Embeds `Agriculture.__init__`. -/
def Agriculture.make (name : String) (area : ℚ) (crop_subtype : String)
    (is_organic : Bool) : Plant :=
  { name := name, area := area, status := "planted",
    kind := .agriculture (pyLower crop_subtype) is_organic }

/-- The `area` setter: raises unless `0 < value`. -/
def Plant.set_area (p : Plant) (value : ℚ) : Except String Plant :=
  if value ≤ 0 then .error "Area must be positive"
  else .ok { p with area := value }

/-- Embeds `valid_statuses` of the `status` setter. -/
def valid_statuses : List String :=
  ["planted", "growing", "harvesting", "harvested", "dormant"]

/-- The `status` setter: raises unless the value is a valid status. -/
def Plant.set_status (p : Plant) (value : String) : Except String Plant :=
  if value ∈ valid_statuses then .ok { p with status := value }
  else .error "Status must be one of the valid statuses"

/-- Embeds `get_yield_estimate`, dispatched on the concrete class:
`Crop` and `Forest` multiply area by the looked-up rate; `Agriculture`
takes `Crop`'s result times `0.8` when organic. -/
def Plant.get_yield_estimate (p : Plant) : ℚ :=
  match p.kind with
  | .crop st => p.area * getRate YIELD_RATES st
  | .forest tt => p.area * getRate TIMBER_RATES tt
  | .agriculture st org =>
      let base := p.area * getRate YIELD_RATES st
      if org then base * 0.8 else base

/-- Embeds `get_type`: `'agriculture'` for `Crop`/`Agriculture`, `'forestry'` for `Forest`. -/
def Plant.get_type (p : Plant) : String :=
  match p.kind with
  | .crop _ => "agriculture"
  | .forest _ => "forestry"
  | .agriculture _ _ => "agriculture"

/-- Embeds `Forest.get_carbon_sequestration` (only `Forest` defines it). Other
variants have no such method in the source; they are mapped to 0 and are
never reached through `get_detailed_analysis`'s `isinstance` filter. -/
def Plant.get_carbon_sequestration (p : Plant) : ℚ :=
  match p.kind with
  | .forest tt => p.area * getRate CARBON_RATES tt
  | _ => 0

/-- Embeds `Agriculture.get_market_value` (only `Agriculture` defines it; other
variants map to 0 and are outside every claim about this method). -/
def Plant.get_market_value (p : Plant) : ℚ :=
  match p.kind with
  | .agriculture st org =>
      let price := getRate BASE_PRICES st
      let yield_tonnes := p.get_yield_estimate
      if org then yield_tonnes * price * 1.3 else yield_tonnes * price
  | _ => 0

/-- Evaluation helper: `roundHalfEven` at an integer value. -/
theorem roundHalfEven_intCast (n : ℤ) : roundHalfEven (n : ℚ) = n := by
  unfold roundHalfEven
  rw [Int.floor_intCast]
  norm_num

/-- Evaluation helper: `round2 x` when `x * 100` is an integer. -/
theorem round2_mul100_int (x : ℚ) (n : ℤ) (h : x * 100 = n) : round2 x = n / 100 := by
  unfold round2
  rw [h, roundHalfEven_intCast]

/-- Evaluation helper: `roundHalfEven` rounds down strictly below the half point. -/
theorem roundHalfEven_eq_floor (x : ℚ) (n : ℤ) (h1 : (n : ℚ) ≤ x) (h2 : x < n + 1/2) :
    roundHalfEven x = n := by
  have hf : ⌊x⌋ = n := Int.floor_eq_iff.mpr ⟨h1, by linarith⟩
  unfold roundHalfEven
  rw [hf, if_pos (by linarith)]

/-! ### Setter application

A Python caller that catches the `ValueError` raised by a setter observes
the object unchanged (the setters assign only after validating).
`applyOp` makes that explicit: on `Except.error` the previous state is kept. -/

/-- One mutation attempt on a plant: an `area` or a `status` assignment. -/
inductive SetterOp where
  | setArea (value : ℚ)
  | setStatus (value : String)

/-- Run one setter; a raised `ValueError` leaves the object as it was. -/
def applyOp (p : Plant) : SetterOp → Plant
  | .setArea v =>
      match p.set_area v with
      | .ok q => q
      | .error _ => p
  | .setStatus s =>
      match p.set_status s with
      | .ok q => q
      | .error _ => p

/-- Run a sequence of setter attempts, successful or failed. -/
def applyOps (p : Plant) (ops : List SetterOp) : Plant := ops.foldl applyOp p

/-! ### `CropManager` -/

/-- Embeds `CropManager`: the ordered backing list `self._plants`. -/
structure CropManager where
  plants : List Plant
deriving DecidableEq, Repr

/-- Embeds `CropManager.__init__`. -/
def CropManager.empty : CropManager := ⟨[]⟩

/-- Embeds `CropManager.add_crop`: dispatch on the lowercased `plant_type`
(`'agriculture'` → `Crop`, `'forestry'` → `Forest`, anything else → `Crop`),
append, and return the new plant. -/
def CropManager.add_crop (m : CropManager) (name : String) (plant_type : String)
    (area : ℚ) (subtype : String) : CropManager × Plant :=
  let plant :=
    if pyLower plant_type = "agriculture" then Crop.make name area subtype
    else if pyLower plant_type = "forestry" then Forest.make name area subtype
    else Crop.make name area subtype
  (⟨m.plants ++ [plant]⟩, plant)

/-- Embeds `CropManager.remove_crop`: delete the first plant with the given name;
return the new state and whether a removal occurred. -/
def CropManager.remove_crop (m : CropManager) (name : String) : CropManager × Bool :=
  match m.plants.findIdx? (fun p => p.name = name) with
  | some i => (⟨m.plants.eraseIdx i⟩, true)
  | none => (m, false)

/-- Embeds `CropManager.get_all_crops`. -/
def CropManager.get_all_crops (m : CropManager) : List Plant := m.plants

/-- Embeds `CropManager.get_crops_by_type`. -/
def CropManager.get_crops_by_type (m : CropManager) (plant_type : String) : List Plant :=
  m.plants.filter (fun p => p.get_type = pyLower plant_type)

/-- Embeds `CropManager.get_total_area`. -/
def CropManager.get_total_area (m : CropManager) : ℚ :=
  (m.plants.map Plant.area).sum

/-- Embeds `CropManager.get_total_yield_estimate`. -/
def CropManager.get_total_yield_estimate (m : CropManager) : ℚ :=
  (m.plants.map Plant.get_yield_estimate).sum

/-! ### `CropAnalyzer`

The analyzer holds a reference to one `CropManager`; its methods are
embedded as functions of that manager's state. `*S` variants at the end
of this section return the manager state the method leaves behind. -/

/-- The dictionary returned by `CropAnalyzer.get_statistics`. -/
structure Statistics where
  total_crops : ℕ
  total_area : ℚ
  agriculture_count : ℕ
  forestry_count : ℕ
  agriculture_area : ℚ
  forestry_area : ℚ
  total_yield_estimate : ℚ
deriving DecidableEq, Repr

/-- Embeds `CropAnalyzer.get_statistics`. -/
def CropAnalyzer.get_statistics (m : CropManager) : Statistics :=
  let crops := m.get_all_crops
  let agriculture := m.get_crops_by_type "agriculture"
  let forestry := m.get_crops_by_type "forestry"
  { total_crops := crops.length
    total_area := round2 m.get_total_area
    agriculture_count := agriculture.length
    forestry_count := forestry.length
    agriculture_area := round2 (agriculture.map Plant.area).sum
    forestry_area := round2 (forestry.map Plant.area).sum
    total_yield_estimate := round2 m.get_total_yield_estimate }

/-- Recommendation string: empty-registry branch. -/
def startRec : String := "Start by adding your first crop or forest plantation."

/-- Recommendation string: agriculture-only branch. -/
def forestryRec : String :=
  "Consider adding forestry for carbon sequestration and diversification."

/-- Recommendation string citing the carbon figure (the f-string of the
source; the embedded number is rendered with `toString` on `ℚ`). -/
def carbonRec (total_carbon : ℚ) : String :=
  "Your forests sequester approximately " ++ toString total_carbon ++
    " tonnes of CO2 per year."

/-- Recommendation string: large-area branch. -/
def precisionRec : String :=
  "Consider implementing precision agriculture techniques for large-scale management."

/-- Recommendation string: single-entity diversification branch. -/
def diversifyRec : String :=
  "Diversify your crops to reduce risk from market fluctuations and pests."

/-- Recommendation string: three-or-more-entities diversification branch. -/
def goodDivRec : String := "Good crop diversification! This reduces overall risk."

/-- The analysis dictionary of `CropAnalyzer.get_detailed_analysis`
(the `crops_detail` snapshot only repeats `to_dict` of each entity and is
referenced by no claim; it is omitted here). -/
structure Analysis where
  statistics : Statistics
  recommendations : List String
  risk_assessment : String
  carbon_sequestration : Option ℚ
deriving DecidableEq, Repr

/-- Embeds `sum(f.get_carbon_sequestration() for f in forestry_plants if isinstance(f, Forest))`. -/
def totalCarbon (m : CropManager) : ℚ :=
  (((m.get_crops_by_type "forestry").filter
      (fun p => match p.kind with | .forest _ => true | _ => false)).map
    Plant.get_carbon_sequestration).sum

/-- Embeds `CropAnalyzer.get_detailed_analysis`, following the source's branch
order: recommendations accumulate in the order the source appends them. -/
def CropAnalyzer.get_detailed_analysis (m : CropManager) : Analysis :=
  let stats := CropAnalyzer.get_statistics m
  let crops := m.get_all_crops
  if stats.total_area = 0 then
    { statistics := stats
      recommendations := [startRec]
      risk_assessment := "low"
      carbon_sequestration := none }
  else
    let recs1 : List String :=
      if stats.agriculture_count > 0 ∧ stats.forestry_count = 0 then [forestryRec] else []
    let carbon : Option ℚ :=
      if stats.forestry_count > 0 then some (round2 (totalCarbon m)) else none
    let recs2 : List String := recs1 ++
      (if stats.forestry_count > 0 then [carbonRec (round2 (totalCarbon m))] else [])
    let recs3 : List String := recs2 ++ (if stats.total_area > 100 then [precisionRec] else [])
    if crops.length = 1 then
      { statistics := stats
        recommendations := recs3 ++ [diversifyRec]
        risk_assessment := "medium"
        carbon_sequestration := carbon }
    else if crops.length ≥ 3 then
      { statistics := stats
        recommendations := recs3 ++ [goodDivRec]
        risk_assessment := "low"
        carbon_sequestration := carbon }
    else
      { statistics := stats
        recommendations := recs3
        risk_assessment := "low"
        carbon_sequestration := carbon }

/-- Winter advisory of `CropAnalyzer.get_seasonal_advice`. -/
def winterAdvice : String :=
  "Winter: Focus on planning next season, soil preparation, and pruning dormant trees."

/-- Spring advisory. -/
def springAdvice : String :=
  "Spring: Ideal time for planting most crops. Monitor soil moisture and prepare irrigation."

/-- Summer advisory. -/
def summerAdvice : String :=
  "Summer: Focus on pest management, irrigation, and early harvesting of some crops."

/-- Autumn advisory. -/
def autumnAdvice : String :=
  "Autumn: Harvest season for most crops. Prepare soil for winter crops."

/-- Generic fallback advisory. -/
def genericAdvice : String :=
  "Monitor your crops regularly and adjust care based on weather conditions."

/-- Embeds `CropAnalyzer.get_seasonal_advice` with an explicit month argument
(a Python `int`, hence `ℤ`); the source iterates its season dict in
insertion order and falls through to the generic string. -/
def CropAnalyzer.get_seasonal_advice (current_month : ℤ) : String :=
  if current_month = 12 ∨ current_month = 1 ∨ current_month = 2 then winterAdvice
  else if current_month = 3 ∨ current_month = 4 ∨ current_month = 5 then springAdvice
  else if current_month = 6 ∨ current_month = 7 ∨ current_month = 8 then summerAdvice
  else if current_month = 9 ∨ current_month = 10 ∨ current_month = 11 then autumnAdvice
  else genericAdvice

/-- Embeds `get_statistics` with the manager state it leaves behind: the method
body only calls the read accessors above and assigns no manager field. -/
def CropAnalyzer.get_statisticsS (m : CropManager) : Statistics × CropManager :=
  (CropAnalyzer.get_statistics m, m)

/-- Embeds `get_detailed_analysis` with the manager state it leaves behind. -/
def CropAnalyzer.get_detailed_analysisS (m : CropManager) : Analysis × CropManager :=
  (CropAnalyzer.get_detailed_analysis m, m)

/-- Embeds `get_seasonal_advice` with the manager state it leaves behind (the
method never touches `self._manager`). -/
def CropAnalyzer.get_seasonal_adviceS (current_month : ℤ) (m : CropManager) :
    String × CropManager :=
  (CropAnalyzer.get_seasonal_advice current_month, m)

/-! ### `utils.calculate_yield_estimate` -/

/-- Embeds `yield_rates` of `utils.calculate_yield_estimate` (no `default` key). -/
def UTIL_YIELD_RATES : List (String × ℚ) :=
  [("wheat", 3.5), ("corn", 10.0), ("rice", 4.5), ("potato", 40.0),
   ("soybean", 2.8), ("cotton", 1.8), ("pine", 15.0), ("oak", 8.0),
   ("eucalyptus", 25.0)]

/-- Embeds `prices` of `utils.calculate_yield_estimate` (no `default` key). -/
def UTIL_PRICES : List (String × ℚ) :=
  [("wheat", 250), ("corn", 200), ("rice", 350), ("potato", 150),
   ("soybean", 400), ("cotton", 1500), ("pine", 100), ("oak", 150),
   ("eucalyptus", 80)]

/-- The dictionary returned by `utils.calculate_yield_estimate`. -/
structure YieldEstimate where
  yield_tonnes : ℚ
  estimated_value : ℚ
  per_hectare_yield : ℚ
  unit : String
deriving DecidableEq, Repr

/-- Embeds `utils.calculate_yield_estimate`. -/
def calculate_yield_estimate (area : ℚ) (crop_type : String) (is_organic : Bool) :
    YieldEstimate :=
  let ct := pyLower crop_type
  let rate := (tget UTIL_YIELD_RATES ct).getD 5.0
  let price0 := (tget UTIL_PRICES ct).getD 200
  let estimated_yield0 := area * rate
  let estimated_yield := if is_organic then estimated_yield0 * 0.8 else estimated_yield0
  let price := if is_organic then price0 * 1.3 else price0
  { yield_tonnes := round2 estimated_yield
    estimated_value := round2 (estimated_yield * price)
    per_hectare_yield := rate
    unit := if ct ∈ ["pine", "oak", "eucalyptus"] then "cubic_meters" else "tonnes" }

/-! ### Helper lemmas -/

/-- A successful or failed setter step keeps the area positive. -/
theorem applyOp_area_pos (p : Plant) (op : SetterOp) (h : 0 < p.area) :
    0 < (applyOp p op).area := by
  cases op with
  | setArea v =>
      by_cases hv : v ≤ 0
      · simp [applyOp, Plant.set_area, hv, h]
      · simp [applyOp, Plant.set_area, hv]
        linarith
  | setStatus s =>
      by_cases hs : s ∈ valid_statuses <;> simp [applyOp, Plant.set_status, hs, h]

/-- A sequence of setter steps keeps the area positive. -/
theorem applyOps_area_pos (p : Plant) (ops : List SetterOp) (h : 0 < p.area) :
    0 < (applyOps p ops).area := by
  induction ops generalizing p with
  | nil => exact h
  | cons op ops ih => exact ih (applyOp p op) (applyOp_area_pos p op h)

/-- The carbon recommendation always starts with `'Y'`, whatever number is
interpolated into it. -/
theorem carbonRec_head (q : ℚ) : (carbonRec q).data.head? = some 'Y' := by
  unfold carbonRec
  generalize toString q = s
  obtain ⟨l⟩ := s
  rfl

/-- The carbon recommendation never coincides with a string starting with
another character. -/
theorem carbonRec_ne (q : ℚ) (s : String) (hs : s.data.head? ≠ some 'Y') :
    carbonRec q ≠ s := fun h => hs (h ▸ carbonRec_head q)

/-- Membership in a conditional singleton list. -/
theorem mem_ite_singleton {c : Prop} [Decidable c] {a x : String}
    (h : x ∈ (if c then [a] else ([] : List String))) : x = a := by
  by_cases hc : c
  · simpa [hc] using h
  · simp [hc] at h

/-! ### Claims -/

/-- C2: assigning `area` a value ≤ 0 raises the validation error and leaves
the entity (every field) unchanged; a positive value updates only `area`.
Assigning `status` a string outside the five-value enum raises the
validation error and leaves the entity unchanged; a valid value updates
only `status`. -/
theorem C2_setter_rejection (p : Plant) (v : ℚ) (s : String) :
    (v ≤ 0 →
      p.set_area v = .error "Area must be positive" ∧ applyOp p (.setArea v) = p) ∧
    (0 < v → p.set_area v = .ok { p with area := v }) ∧
    (s ∉ valid_statuses →
      p.set_status s = .error "Status must be one of the valid statuses" ∧
      applyOp p (.setStatus s) = p) ∧
    (s ∈ valid_statuses → p.set_status s = .ok { p with status := s }) := by
  refine ⟨fun h => ?_, fun h => ?_, fun h => ?_, fun h => ?_⟩
  · constructor <;> simp [Plant.set_area, applyOp, h]
  · simp [Plant.set_area, not_le.mpr h]
  · constructor <;> simp [Plant.set_status, applyOp, h]
  · simp [Plant.set_status, h]

/-- Witness for C2 at a concrete plant with a rejected area, an accepted
area, a rejected status and an accepted status. -/
theorem C2_setter_rejection_witness :
    ((-1 : ℚ) ≤ 0 ∧
      (Crop.make "w" 5 "wheat").set_area (-1) = .error "Area must be positive" ∧
      applyOp (Crop.make "w" 5 "wheat") (.setArea (-1)) = Crop.make "w" 5 "wheat") ∧
    ((0 : ℚ) < 7 ∧
      (Crop.make "w" 5 "wheat").set_area 7 = .ok { Crop.make "w" 5 "wheat" with area := 7 }) ∧
    ("frozen" ∉ valid_statuses ∧
      (Crop.make "w" 5 "wheat").set_status "frozen" =
        .error "Status must be one of the valid statuses" ∧
      applyOp (Crop.make "w" 5 "wheat") (.setStatus "frozen") = Crop.make "w" 5 "wheat") ∧
    ("dormant" ∈ valid_statuses ∧
      (Crop.make "w" 5 "wheat").set_status "dormant" =
        .ok { Crop.make "w" 5 "wheat" with status := "dormant" }) :=
  ⟨⟨by norm_num, (C2_setter_rejection (Crop.make "w" 5 "wheat") (-1) "frozen").1 (by norm_num)⟩,
   ⟨by norm_num, (C2_setter_rejection (Crop.make "w" 5 "wheat") 7 "frozen").2.1 (by norm_num)⟩,
   ⟨by decide, (C2_setter_rejection (Crop.make "w" 5 "wheat") 7 "frozen").2.2.1 (by decide)⟩,
   ⟨by decide, (C2_setter_rejection (Crop.make "w" 5 "wheat") 7 "dormant").2.2.2 (by decide)⟩⟩

/-- C3: for a `Crop` or `Forest` entity with positive area, the yield
estimate is `area * rate` when the stored subtype is a key of the
variant's table, and `area * (the table's default entry)` otherwise; the
fallback entry exists, so the lookup is total. -/
theorem C3_yield_lookup (name status st : String) (area : ℚ) (h : 0 < area) :
    (∀ r, tget YIELD_RATES st = some r →
      (Plant.mk name area status (.crop st)).get_yield_estimate = area * r) ∧
    (tget YIELD_RATES st = none →
      tget YIELD_RATES "default" = some 5.0 ∧
      (Plant.mk name area status (.crop st)).get_yield_estimate = area * 5.0) ∧
    (∀ r, tget TIMBER_RATES st = some r →
      (Plant.mk name area status (.forest st)).get_yield_estimate = area * r) ∧
    (tget TIMBER_RATES st = none →
      tget TIMBER_RATES "default" = some 12.0 ∧
      (Plant.mk name area status (.forest st)).get_yield_estimate = area * 12.0) := by
  refine ⟨fun r hr => ?_, fun hn => ⟨rfl, ?_⟩, fun r hr => ?_, fun hn => ⟨rfl, ?_⟩⟩
  · simp [Plant.get_yield_estimate, getRate, hr, Option.orElse]
  · rw [show (5.0 : ℚ) = ((tget YIELD_RATES "default").getD 0) from rfl]
    simp [Plant.get_yield_estimate, getRate, hn, Option.orElse]
  · simp [Plant.get_yield_estimate, getRate, hr, Option.orElse]
  · rw [show (12.0 : ℚ) = ((tget TIMBER_RATES "default").getD 0) from rfl]
    simp [Plant.get_yield_estimate, getRate, hn, Option.orElse]

/-- Witness for C3: a registered crop subtype, an unregistered crop
subtype, a registered tree type and an unregistered tree type. -/
theorem C3_yield_lookup_witness :
    (0 : ℚ) < 2 ∧
    (Plant.mk "a" 2 "planted" (.crop "wheat")).get_yield_estimate = 2 * 3.5 ∧
    (Plant.mk "a" 2 "planted" (.crop "kiwi")).get_yield_estimate = 2 * 5.0 ∧
    (Plant.mk "a" 2 "planted" (.forest "oak")).get_yield_estimate = 2 * 8.0 ∧
    (Plant.mk "a" 2 "planted" (.forest "baobab")).get_yield_estimate = 2 * 12.0 :=
  ⟨by norm_num,
   (C3_yield_lookup "a" "planted" "wheat" 2 (by norm_num)).1 3.5 rfl,
   ((C3_yield_lookup "a" "planted" "kiwi" 2 (by norm_num)).2.1 rfl).2,
   (C3_yield_lookup "a" "planted" "oak" 2 (by norm_num)).2.2.1 8.0 rfl,
   ((C3_yield_lookup "a" "planted" "baobab" 2 (by norm_num)).2.2.2 rfl).2⟩

/-- C4: between two `Agriculture` entities identical except for the
organic flag, the organic one yields 0.8 times the other's estimate; the
organic one's market value is its own yield estimate times the price
(table entry for its subtype, `default` fallback) times 1.3, while the
non-organic one's market value is its yield estimate times the price with
no 1.3 factor. -/
theorem C4_organic_adjustment (name st : String) (area : ℚ) :
    (Agriculture.make name area st true).get_yield_estimate =
      0.8 * (Agriculture.make name area st false).get_yield_estimate ∧
    (Agriculture.make name area st true).get_market_value =
      (Agriculture.make name area st true).get_yield_estimate *
        getRate BASE_PRICES (pyLower st) * 1.3 ∧
    (Agriculture.make name area st false).get_market_value =
      (Agriculture.make name area st false).get_yield_estimate *
        getRate BASE_PRICES (pyLower st) := by
  refine ⟨?_, ?_, ?_⟩ <;>
    simp [Agriculture.make, Plant.get_yield_estimate, Plant.get_market_value] <;>
    ring

/-- C6: the registry's total area is the sum of its entities' areas, its
total yield estimate is the sum of their yield estimates, and both
aggregates are 0 on the empty registry. -/
theorem C6_registry_aggregates (m : CropManager) :
    m.get_total_area = (m.get_all_crops.map Plant.area).sum ∧
    m.get_total_yield_estimate = (m.get_all_crops.map Plant.get_yield_estimate).sum ∧
    CropManager.empty.get_total_area = 0 ∧
    CropManager.empty.get_total_yield_estimate = 0 :=
  ⟨rfl, rfl, rfl, rfl⟩

/-- C8: with an explicit month override, months 12, 1, 2 give the winter
advisory, 3–5 the spring one, 6–8 the summer one, 9–11 the autumn one,
and any month outside 1–12 the generic monitoring string. -/
theorem C8_seasonal_advice (m : ℤ) :
    ((m = 1 ∨ m = 2 ∨ m = 12) → CropAnalyzer.get_seasonal_advice m = winterAdvice) ∧
    (3 ≤ m ∧ m ≤ 5 → CropAnalyzer.get_seasonal_advice m = springAdvice) ∧
    (6 ≤ m ∧ m ≤ 8 → CropAnalyzer.get_seasonal_advice m = summerAdvice) ∧
    (9 ≤ m ∧ m ≤ 11 → CropAnalyzer.get_seasonal_advice m = autumnAdvice) ∧
    (m < 1 ∨ 12 < m → CropAnalyzer.get_seasonal_advice m = genericAdvice) := by
  unfold CropAnalyzer.get_seasonal_advice
  refine ⟨fun h => ?_, fun h => ?_, fun h => ?_, fun h => ?_, fun h => ?_⟩
  · rw [if_pos (by omega)]
  · rw [if_neg (by omega), if_pos (by omega)]
  · rw [if_neg (by omega), if_neg (by omega), if_pos (by omega)]
  · rw [if_neg (by omega), if_neg (by omega), if_neg (by omega), if_pos (by omega)]
  · rw [if_neg (by omega), if_neg (by omega), if_neg (by omega), if_neg (by omega)]

/-- Witness for C8 at months 1, 12, 7, 0 and 13. -/
theorem C8_seasonal_advice_witness :
    CropAnalyzer.get_seasonal_advice 1 = winterAdvice ∧
    CropAnalyzer.get_seasonal_advice 12 = winterAdvice ∧
    CropAnalyzer.get_seasonal_advice 7 = summerAdvice ∧
    CropAnalyzer.get_seasonal_advice 0 = genericAdvice ∧
    CropAnalyzer.get_seasonal_advice 13 = genericAdvice :=
  ⟨(C8_seasonal_advice 1).1 (by norm_num),
   (C8_seasonal_advice 12).1 (by norm_num),
   (C8_seasonal_advice 7).2.2.1 (by norm_num),
   (C8_seasonal_advice 0).2.2.2.2 (by norm_num),
   (C8_seasonal_advice 13).2.2.2.2 (by norm_num)⟩

/-- C9: `get_statistics`, `get_detailed_analysis` and `get_seasonal_advice`
leave the registry bound to the analyzer exactly as it was: the manager
state each method hands back equals the incoming one (length, order and
all entity fields included). -/
theorem C9_analyzer_read_only (m : CropManager) (month : ℤ) :
    (CropAnalyzer.get_statisticsS m).2 = m ∧
    (CropAnalyzer.get_detailed_analysisS m).2 = m ∧
    (CropAnalyzer.get_seasonal_adviceS month m).2 = m :=
  ⟨rfl, rfl, rfl⟩

/-- C10: whatever arguments `add_crop` is given, the entity it constructs
and appends is a plain `Crop` or a `Forest`, never the organic
`Agriculture` variant. -/
theorem C10_add_crop_variant (m : CropManager)
    (name plant_type subtype : String) (area : ℚ) :
    ((∃ st, (m.add_crop name plant_type area subtype).2.kind = .crop st) ∨
      (∃ st, (m.add_crop name plant_type area subtype).2.kind = .forest st)) ∧
    (m.add_crop name plant_type area subtype).1.plants =
      m.plants ++ [(m.add_crop name plant_type area subtype).2] := by
  unfold CropManager.add_crop
  by_cases h1 : pyLower plant_type = "agriculture"
  · simp [h1, Crop.make]
  · by_cases h2 : pyLower plant_type = "forestry"
    · simp [h1, h2, Forest.make]
    · simp [h1, h2, Crop.make]

/-- C1 counterexample: `add_crop` performs no area validation, so the
entity it constructs from area −1 carries area −1, violating the claimed
`area > 0` invariant immediately after construction. -/
theorem C1_area_invariant_counterexample :
    (CropManager.empty.add_crop "field" "agriculture" (-1) "default").2.area = -1 ∧
    ¬ 0 < (CropManager.empty.add_crop "field" "agriculture" (-1) "default").2.area := by
  have hc : pyLower "agriculture" = "agriculture" := by decide
  have h : (CropManager.empty.add_crop "field" "agriculture" (-1) "default").2.area = -1 := by
    simp [CropManager.add_crop, Crop.make, hc]
  exact ⟨h, by rw [h]; norm_num⟩

/-- C1 (amended): an entity constructed through `add_crop` with a positive
area keeps a strictly positive area after any sequence of successful or
failed `area`/`status` setter calls. -/
theorem C1_area_invariant (m : CropManager)
    (name plant_type subtype : String) (area : ℚ) (ops : List SetterOp)
    (h : 0 < area) :
    0 < (applyOps (m.add_crop name plant_type area subtype).2 ops).area := by
  apply applyOps_area_pos
  unfold CropManager.add_crop
  by_cases h1 : pyLower plant_type = "agriculture"
  · simpa [h1, Crop.make] using h
  · by_cases h2 : pyLower plant_type = "forestry"
    · simpa [h1, h2, Forest.make] using h
    · simpa [h1, h2, Crop.make] using h

/-- Witness for C1 at a concrete registry: area 2, then a failed area
assignment, a failed status assignment and a successful area assignment. -/
theorem C1_area_invariant_witness :
    (0 : ℚ) < 2 ∧
    0 < (applyOps (CropManager.empty.add_crop "f" "forestry" 2 "pine").2
          [.setArea (-3), .setStatus "bogus", .setArea 7]).area :=
  ⟨by norm_num,
   C1_area_invariant CropManager.empty "f" "forestry" "pine" 2
     [.setArea (-3), .setStatus "bogus", .setArea 7] (by norm_num)⟩

/-- Registry holding a single crop whose area is positive but rounds to 0
at two decimal places. -/
def tinyRegistry : CropManager := ⟨[Crop.make "tiny" (1/1000) "wheat"]⟩

/-- C5 counterexample: a registry with exactly one entity of nonzero total
area (1/1000 hectare) for which the detailed analysis nevertheless reports
risk `"low"` and appends no diversify recommendation — the source compares
the *rounded* total area against 0, and `round(0.001, 2) == 0`. -/
theorem C5_risk_counterexample :
    tinyRegistry.plants.length = 1 ∧
    tinyRegistry.get_total_area ≠ 0 ∧
    (CropAnalyzer.get_detailed_analysis tinyRegistry).risk_assessment = "low" ∧
    diversifyRec ∉ (CropAnalyzer.get_detailed_analysis tinyRegistry).recommendations := by
  have hta : tinyRegistry.get_total_area = 1/1000 := by
    simp [tinyRegistry, CropManager.get_total_area, Crop.make]
  have hr0 : round2 (1/1000) = 0 := by
    unfold round2
    rw [roundHalfEven_eq_floor (1/1000 * 100) 0 (by norm_num) (by norm_num)]
    norm_num
  have hz : (CropAnalyzer.get_statistics tinyRegistry).total_area = 0 := by
    rw [show (CropAnalyzer.get_statistics tinyRegistry).total_area =
        round2 tinyRegistry.get_total_area from rfl, hta, hr0]
  have ha : CropAnalyzer.get_detailed_analysis tinyRegistry =
      { statistics := CropAnalyzer.get_statistics tinyRegistry
        recommendations := [startRec]
        risk_assessment := "low"
        carbon_sequestration := none } := by
    unfold CropAnalyzer.get_detailed_analysis
    rw [if_pos hz]
  refine ⟨rfl, by rw [hta]; norm_num, by rw [ha], by rw [ha]; decide⟩

/-- C5 (amended): provided the statistics' `total_area` (the total area
rounded to two decimals) is nonzero — exactly one entity gives risk
`"medium"` with the diversify recommendation appended; three or more
entities give risk `"low"` with the positive-diversification note; exactly
two entities give risk `"low"` with neither diversification string. -/
theorem C5_diversification_risk (m : CropManager)
    (h : round2 m.get_total_area ≠ 0) :
    (m.plants.length = 1 →
      (CropAnalyzer.get_detailed_analysis m).risk_assessment = "medium" ∧
      diversifyRec ∈ (CropAnalyzer.get_detailed_analysis m).recommendations) ∧
    (3 ≤ m.plants.length →
      (CropAnalyzer.get_detailed_analysis m).risk_assessment = "low" ∧
      goodDivRec ∈ (CropAnalyzer.get_detailed_analysis m).recommendations) ∧
    (m.plants.length = 2 →
      (CropAnalyzer.get_detailed_analysis m).risk_assessment = "low" ∧
      diversifyRec ∉ (CropAnalyzer.get_detailed_analysis m).recommendations ∧
      goodDivRec ∉ (CropAnalyzer.get_detailed_analysis m).recommendations) := by
  have hne : ¬ (CropAnalyzer.get_statistics m).total_area = 0 := h
  refine ⟨fun h1 => ?_, fun h3 => ?_, fun h2 => ?_⟩
  · unfold CropAnalyzer.get_detailed_analysis
    rw [if_neg hne, if_pos (show (CropManager.get_all_crops m).length = 1 from h1)]
    exact ⟨rfl, by simp⟩
  · unfold CropAnalyzer.get_detailed_analysis
    rw [if_neg hne,
      if_neg (show ¬ (CropManager.get_all_crops m).length = 1 by
        simp only [CropManager.get_all_crops]; omega),
      if_pos (show (CropManager.get_all_crops m).length ≥ 3 from h3)]
    exact ⟨rfl, by simp⟩
  · unfold CropAnalyzer.get_detailed_analysis
    rw [if_neg hne,
      if_neg (show ¬ (CropManager.get_all_crops m).length = 1 by
        simp only [CropManager.get_all_crops]; omega),
      if_neg (show ¬ (CropManager.get_all_crops m).length ≥ 3 by
        simp only [CropManager.get_all_crops]; omega)]
    refine ⟨rfl, fun hmem => ?_, fun hmem => ?_⟩
    · simp only [Analysis.recommendations, List.mem_append] at hmem
      rcases hmem with (hA | hB) | hC
      · exact absurd (mem_ite_singleton hA) (by decide)
      · exact carbonRec_ne _ _ (by decide) (mem_ite_singleton hB).symm
      · exact absurd (mem_ite_singleton hC) (by decide)
    · simp only [Analysis.recommendations, List.mem_append] at hmem
      rcases hmem with (hA | hB) | hC
      · exact absurd (mem_ite_singleton hA) (by decide)
      · exact carbonRec_ne _ _ (by decide) (mem_ite_singleton hB).symm
      · exact absurd (mem_ite_singleton hC) (by decide)

/-- Registry holding a single wheat crop of 10 hectares. -/
def oneCropRegistry : CropManager := ⟨[Crop.make "FieldA" 10 "wheat"]⟩

/-- Witness for C5 at a one-entity registry with total area 10. -/
theorem C5_diversification_risk_witness :
    round2 oneCropRegistry.get_total_area ≠ 0 ∧
    (CropAnalyzer.get_detailed_analysis oneCropRegistry).risk_assessment = "medium" ∧
    diversifyRec ∈ (CropAnalyzer.get_detailed_analysis oneCropRegistry).recommendations := by
  have hta : oneCropRegistry.get_total_area = 10 := by
    simp [oneCropRegistry, CropManager.get_total_area, Crop.make]
  have hr : round2 oneCropRegistry.get_total_area ≠ 0 := by
    rw [hta, round2_mul100_int 10 1000 (by norm_num)]
    norm_num
  exact ⟨hr, (C5_diversification_risk oneCropRegistry hr).1 rfl⟩

/-- C7: `calculate_yield_estimate` falls back to rate 5.0 and price 200
for a crop type absent from its tables; its unit is `"cubic_meters"`
exactly when the lowercased crop type is pine, oak or eucalyptus and
`"tonnes"` otherwise; and it returns the spec's concrete values on
`(10, "pine", false)` and `(10, "wheat", true)`. -/
theorem C7_standalone_estimator (area : ℚ) (crop_type : String) (is_organic : Bool) :
    ((tget UTIL_YIELD_RATES (pyLower crop_type) = none ∧
      tget UTIL_PRICES (pyLower crop_type) = none) →
      (calculate_yield_estimate area crop_type is_organic).per_hectare_yield = 5.0 ∧
      (calculate_yield_estimate area crop_type is_organic).yield_tonnes =
        round2 (if is_organic then area * 5.0 * 0.8 else area * 5.0) ∧
      (calculate_yield_estimate area crop_type is_organic).estimated_value =
        round2 ((if is_organic then area * 5.0 * 0.8 else area * 5.0) *
          (if is_organic then (200 : ℚ) * 1.3 else 200))) ∧
    ((calculate_yield_estimate area crop_type is_organic).unit = "cubic_meters" ↔
      pyLower crop_type ∈ ["pine", "oak", "eucalyptus"]) ∧
    (pyLower crop_type ∉ ["pine", "oak", "eucalyptus"] →
      (calculate_yield_estimate area crop_type is_organic).unit = "tonnes") ∧
    (calculate_yield_estimate 10 "pine" false).unit = "cubic_meters" ∧
    (calculate_yield_estimate 10 "wheat" true).yield_tonnes = 28.0 ∧
    (calculate_yield_estimate 10 "wheat" true).estimated_value = 9100.0 := by
  have hw : pyLower "wheat" = "wheat" := by decide
  have hwr : tget UTIL_YIELD_RATES "wheat" = some 3.5 := rfl
  have hwp : tget UTIL_PRICES "wheat" = some 250 := rfl
  refine ⟨fun habs => ⟨?_, ?_, ?_⟩, ?_, fun hm => ?_, ?_, ?_, ?_⟩
  · simp [calculate_yield_estimate, habs.1]
  · simp [calculate_yield_estimate, habs.1, habs.2]
  · simp [calculate_yield_estimate, habs.1, habs.2]
  · by_cases hm : pyLower crop_type ∈ ["pine", "oak", "eucalyptus"] <;>
      simp [calculate_yield_estimate, hm]
  · simp [calculate_yield_estimate, hm]
  · decide
  · have he : (calculate_yield_estimate 10 "wheat" true).yield_tonnes =
        round2 (10 * 3.5 * 0.8) := by
      simp [calculate_yield_estimate, hw, hwr]
    rw [he, round2_mul100_int (10 * 3.5 * 0.8) 2800 (by norm_num)]
    norm_num
  · have he : (calculate_yield_estimate 10 "wheat" true).estimated_value =
        round2 (10 * 3.5 * 0.8 * (250 * 1.3)) := by
      simp [calculate_yield_estimate, hw, hwr, hwp]
    rw [he, round2_mul100_int (10 * 3.5 * 0.8 * (250 * 1.3)) 910000 (by norm_num)]
    norm_num

/-- Witness for C7: the fallback clause at the unregistered crop type
`"Mango"`, the unit rule at the registered forestry type `"Oak"` and the
registered crop `"corn"`, and the two concrete spec examples. -/
theorem C7_standalone_estimator_witness :
    (tget UTIL_YIELD_RATES (pyLower "Mango") = none ∧
      tget UTIL_PRICES (pyLower "Mango") = none) ∧
    (calculate_yield_estimate 3 "Mango" false).per_hectare_yield = 5.0 ∧
    pyLower "Oak" ∈ ["pine", "oak", "eucalyptus"] ∧
    (calculate_yield_estimate 2 "Oak" false).unit = "cubic_meters" ∧
    pyLower "corn" ∉ ["pine", "oak", "eucalyptus"] ∧
    (calculate_yield_estimate 2 "corn" true).unit = "tonnes" ∧
    (calculate_yield_estimate 10 "pine" false).unit = "cubic_meters" ∧
    (calculate_yield_estimate 10 "wheat" true).yield_tonnes = 28.0 ∧
    (calculate_yield_estimate 10 "wheat" true).estimated_value = 9100.0 :=
  ⟨⟨rfl, rfl⟩,
   ((C7_standalone_estimator 3 "Mango" false).1 ⟨rfl, rfl⟩).1,
   by decide,
   (C7_standalone_estimator 2 "Oak" false).2.1.mpr (by decide),
   by decide,
   (C7_standalone_estimator 2 "corn" true).2.2.1 (by decide),
   (C7_standalone_estimator 10 "pine" false).2.2.2.1,
   (C7_standalone_estimator 10 "wheat" true).2.2.2.2.1,
   (C7_standalone_estimator 10 "wheat" true).2.2.2.2.2⟩

end AgriLib
